import Mathlib

/-!
Verification of the Wormhole bridge settlement core: the claim-account replay
guard (`core-bridge/src/utils/vaa/mod.rs`) and the native-asset settlement path
(`token-bridge/src/legacy/processor/complete_transfer/native.rs`).

Machine integers are modelled as `Nat` with explicit `% 2 ^ w` where wrapping
matters.  Fallible operations return `Except Error _`.  The ledger's account
store is an explicit state threaded through the claim operations.  Definitions
follow the Rust source; collaborators that live outside the two source files
(the program-derived-address function, `create_account_safe`,
`validate_token_transfer_vaa`, `EncodedAmount::denorm`) are modelled from the
spec and marked as such in their doc comments.
-/

/-- Big-endian byte encoding of a `u16` (Rust `u16::to_be_bytes`). -/
def u16_to_be_bytes (n : Nat) : List Nat :=
  [n / 256 % 256, n % 256]

/-- Big-endian byte encoding of a `u64` (Rust `u64::to_be_bytes`). -/
def u64_to_be_bytes (n : Nat) : List Nat :=
  (List.range 8).map (fun i => n / 256 ^ (7 - i) % 256)

/-- Modelled from the spec: the host ledger's standard deterministic-address
derivation (`Pubkey::find_program_address`, which is not under `src/`): a pure
function of the seed byte strings and the deriving program's identity, with an
auxiliary "bump" disambiguator as second output.  The concrete mixing function
is a stand-in; every claim about it uses only that it is a deterministic
function of exactly these inputs. -/
def find_program_address (seeds : List (List Nat)) (programId : Nat) : Nat × Nat :=
  let h := seeds.foldl
    (fun acc s => s.foldl (fun a b => (a * 65599 + b + 1) % 2 ^ 256) ((acc * 65599 + 254) % 2 ^ 256))
    (programId + 1)
  (h, 255 - h % 64)

/-- Errors surfaced by the modelled operations.  Constructor names follow the
source where the source names them (`ConstraintSeeds` is Anchor's error for the
claim-address mismatch, called `AddressMismatch` by the spec; `WrappedAsset`
and `InvalidMint` are `TokenBridgeError` variants, the former called
`WrongSettlementPath` by the spec).  `AlreadyClaimed` and `UntrustedEmitter`
name the failures of the spec-modelled collaborators, after the spec.
`AmountOverflow` is the spec's name for a denormalized amount exceeding `u64`;
the source never produces it (it panics instead, modelled by `Panicked`). -/
inductive Error where
  | ConstraintSeeds
  | AlreadyClaimed
  | UntrustedEmitter
  | WrappedAsset
  | InvalidMint
  | AmountOverflow
  | Panicked
  deriving DecidableEq

instance {ε α : Type} [DecidableEq ε] [DecidableEq α] : DecidableEq (Except ε α) :=
  fun x y =>
    match x, y with
    | .error a, .error b =>
      if h : a = b then isTrue (by rw [h])
      else isFalse (by intro he; injection he with h2; exact h h2)
    | .error _, .ok _ => isFalse (by intro h; exact Except.noConfusion h)
    | .ok _, .error _ => isFalse (by intro h; exact Except.noConfusion h)
    | .ok a, .ok b =>
      if h : a = b then isTrue (by rw [h])
      else isFalse (by intro he; injection he with h2; exact h h2)

/-- The ledger's account store restricted to what the claim path touches:
the list of created claim cells, each one byte, keyed by address. -/
structure Ledger where
  claims : List (Nat × Nat)
  deriving DecidableEq

/-- Whether an address is already occupied by a created account. -/
def Ledger.isOccupied (l : Ledger) (addr : Nat) : Bool :=
  l.claims.any (fun p => p.1 = addr)

/-- Write a byte into the single data cell of the account at `addr`
(`ctx.accounts.claim.data.borrow_mut()[0] = bump`). -/
def Ledger.writeByte (l : Ledger) (addr b : Nat) : Ledger :=
  ⟨l.claims.map (fun p => if p.1 = addr then (addr, b) else p)⟩

/-- The byte stored at the account at `addr`, if that account exists. -/
def Ledger.stored (l : Ledger) (addr : Nat) : Option Nat :=
  (l.claims.find? (fun p => p.1 = addr)).map (fun p => p.2)

/-- Modelled from the spec: the account-creation collaborator
(`wormhole_solana_utils::cpi::system_program::create_account_safe`, not under
`src/`): atomically creates a minimal one-byte cell at `addr`, zero-filled,
and fails deterministically when the address is already occupied, surfacing
`AlreadyClaimed`. -/
def create_account_safe (l : Ledger) (addr : Nat) : Except Error Ledger :=
  if l.isOccupied addr then .error .AlreadyClaimed
  else .ok ⟨(addr, 0) :: l.claims⟩

/-- The emitter information of a VAA (`vaa.emitter_info()`): 32-byte origin
address, `u16` origin chain id, `u64` sequence number. -/
structure EmitterInfo where
  address : List Nat
  chain : Nat
  sequence : Nat
  deriving DecidableEq

/-- The token-transfer payload of a VAA, already parsed
(`TokenBridgeMessage::try_from(vaa.payload()).unwrap().to_transfer_unchecked()`):
`token_chain`, 32-byte `token_address`, normalized `U256` amount and relayer
fee, and the recipient. -/
structure TransferMsg where
  token_chain : Nat
  token_address : List Nat
  encoded_amount : Nat
  encoded_relayer_fee : Nat
  recipient : List Nat
  deriving DecidableEq

/-- A parsed, trusted VAA account as the settlement core sees it. -/
structure VaaAccount where
  emitter : EmitterInfo
  payload : TransferMsg
  deriving DecidableEq

/-- The seed byte strings `claim_vaa` derives the claim address from:
optional namespace seed, then emitter address, big-endian chain, big-endian
sequence. -/
def claim_seeds (pfx : Option (List Nat)) (e : EmitterInfo) : List (List Nat) :=
  match pfx with
  | some p => [p, e.address, u16_to_be_bytes e.chain, u64_to_be_bytes e.sequence]
  | none => [e.address, u16_to_be_bytes e.chain, u64_to_be_bytes e.sequence]

/-- `handle_claim_vaa_prefixed` from `core-bridge/src/utils/vaa/mod.rs`:
derive the expected claim address from the prefixed seeds, require the passed
claim account key to equal it (`ErrorCode::ConstraintSeeds` otherwise), create
the one-byte account, then store the bump in its single byte. -/
def handle_claim_vaa_prefixed (l : Ledger) (claimKey programId : Nat)
    (pfxSeed emitterAddressSeed emitterChainSeed sequenceSeed : List Nat) :
    Except Error Ledger :=
  let fpa := find_program_address
    [pfxSeed, emitterAddressSeed, emitterChainSeed, sequenceSeed] programId
  if claimKey = fpa.1 then
    match create_account_safe l claimKey with
    | .error e => .error e
    | .ok l' => .ok (l'.writeByte claimKey fpa.2)
  else .error .ConstraintSeeds

/-- `handle_claim_vaa` from `core-bridge/src/utils/vaa/mod.rs`: the unprefixed
variant of `handle_claim_vaa_prefixed`. -/
def handle_claim_vaa (l : Ledger) (claimKey programId : Nat)
    (emitterAddressSeed emitterChainSeed sequenceSeed : List Nat) :
    Except Error Ledger :=
  let fpa := find_program_address
    [emitterAddressSeed, emitterChainSeed, sequenceSeed] programId
  if claimKey = fpa.1 then
    match create_account_safe l claimKey with
    | .error e => .error e
    | .ok l' => .ok (l'.writeByte claimKey fpa.2)
  else .error .ConstraintSeeds

/-- `claim_vaa` from `core-bridge/src/utils/vaa/mod.rs`: dispatch on the
optional claim seed namespace, passing the VAA's emitter address, big-endian
chain and big-endian sequence as the remaining seeds.  `payerKey` funds the
account and plays no other role. -/
def claim_vaa (l : Ledger) (claimKey payerKey programId : Nat)
    (vaa : VaaAccount) (claimSeedPfx : Option (List Nat)) : Except Error Ledger :=
  let _ := payerKey
  let emitter := vaa.emitter
  match claimSeedPfx with
  | some pfxSeed =>
      handle_claim_vaa_prefixed l claimKey programId pfxSeed
        emitter.address (u16_to_be_bytes emitter.chain) (u64_to_be_bytes emitter.sequence)
  | none =>
      handle_claim_vaa l claimKey programId
        emitter.address (u16_to_be_bytes emitter.chain) (u64_to_be_bytes emitter.sequence)

/-- `wormhole_solana_consts::SOLANA_CHAIN`: the Wormhole chain identifier of
Solana, the local chain. -/
def SOLANA_CHAIN : Nat := 1

/-- `Pubkey::from(token_address)`: a 32-byte array read as a public key;
modelled as the big-endian numeric value of the bytes. -/
def pubkey_from_bytes (bs : List Nat) : Nat :=
  bs.foldl (fun a b => a * 256 + b) 0

/-- The registered-emitter record (`state::RegisteredEmitter`, stored outside
`src/`): per the spec's emitter-registry interface, the expected origin chain
and emitter address of the trusted bridge counterpart. -/
structure RegisteredEmitter where
  chain : Nat
  address : List Nat
  deriving DecidableEq

/-- Modelled from the spec: `super::validate_token_transfer_vaa` (defined in
the `complete_transfer` module file, not under `src/`): look up the registered
emitter for the message's chain, require it to match the message's emitter
address, failing with `UntrustedEmitter` otherwise, and return the payload's
`(token_chain, token_address)`. -/
def validate_token_transfer_vaa (re : RegisteredEmitter) (vaa : VaaAccount) :
    Except Error (Nat × List Nat) :=
  if re.chain = vaa.emitter.chain ∧ re.address = vaa.emitter.address then
    .ok (vaa.payload.token_chain, vaa.payload.token_address)
  else .error .UntrustedEmitter

/-- The accounts of the `CompleteTransferNative` instruction that the handler
reads, each reduced to what the model needs: its address (and for the mint,
its decimals; for the registered emitter, its stored record). -/
structure CompleteTransferNativeAccounts where
  payer : Nat
  claim : Nat
  registered_emitter : RegisteredEmitter
  recipient_token : Nat
  payer_token : Nat
  custody_token : Nat
  mint : Nat
  mint_decimals : Nat
  custody_authority : Nat
  deriving DecidableEq

/-- `crate::ID`, the token bridge program's own identity (a fixed public key
constant declared outside `src/`; its concrete value is irrelevant to every
claim, so an arbitrary fixed value stands in). -/
def TOKEN_BRIDGE_ID : Nat := 14

/-- `CompleteTransferNative::constraints` from
`token-bridge/src/legacy/processor/complete_transfer/native.rs`: validate the
token-transfer VAA against the registered emitter, then require the payload's
`token_chain` to be Solana (`TokenBridgeError::WrappedAsset` otherwise), then
require the mint key to equal the payload's token address
(`TokenBridgeError::InvalidMint` otherwise). -/
def CompleteTransferNative.constraints (accs : CompleteTransferNativeAccounts)
    (vaa : VaaAccount) : Except Error Unit :=
  match validate_token_transfer_vaa accs.registered_emitter vaa with
  | .error e => .error e
  | .ok (token_chain, token_address) =>
    if token_chain = SOLANA_CHAIN then
      if accs.mint = pubkey_from_bytes token_address then .ok ()
      else .error .InvalidMint
    else .error .WrappedAsset

/-- Modelled from the spec: `EncodedAmount::denorm` from `wormhole_raw_vaas`
(not under `src/`): scale a normalized value `v` to native precision with `D`
decimals: `v * 10 ^ (D - 8)` when `D > 8`, integer floor division
`v / 10 ^ (8 - D)` when `D ≤ 8`. -/
def denorm (v : Nat) (decimals : Nat) : Nat :=
  if decimals > 8 then v * 10 ^ (decimals - 8) else v / 10 ^ (8 - decimals)

/-- The `U256 → u64` conversion `.try_into()` followed by
`.expect(..)` / `.unwrap()`: values not representable in 64 bits abort the
program with a Rust panic, which is not a `TokenBridgeError` code. -/
def u64_from_u256 (v : Nat) : Except Error Nat :=
  if v < 2 ^ 64 then .ok v else .error .Panicked

/-- The `u64` wrapping subtraction semantics of `transfer_amount -=
relayer_payout` (no checked assertion on this path). -/
def wrap_sub (a b : Nat) : Nat :=
  (a + 2 ^ 64 - b % 2 ^ 64) % 2 ^ 64

/-- One invocation of the token program's transfer instruction issued from the
custody account under the custody authority. -/
structure TokenTransfer where
  from_acc : Nat
  to_acc : Nat
  amount : Nat
  deriving DecidableEq

/-- `complete_transfer_native` from
`token-bridge/src/legacy/processor/complete_transfer/native.rs`, including its
`#[access_control(CompleteTransferNative::constraints(&ctx))]` attribute,
which Anchor runs before the handler body.  The handler then creates the claim
account via `claim_vaa` (no namespace seed, program id `crate::ID`),
denormalizes the transfer amount and relayer payout by the mint's decimals
(panicking on `u64` overflow), and issues either the relayer-plus-recipient
pair of transfers or the single recipient transfer from the custody account.
The result is the updated ledger and the list of issued transfers. -/
def complete_transfer_native (l : Ledger) (accs : CompleteTransferNativeAccounts)
    (vaa : VaaAccount) : Except Error (Ledger × List TokenTransfer) :=
  match CompleteTransferNative.constraints accs vaa with
  | .error e => .error e
  | .ok _ =>
    match claim_vaa l accs.claim accs.payer TOKEN_BRIDGE_ID vaa none with
    | .error e => .error e
    | .ok l' =>
      let transfer := vaa.payload
      let decimals := accs.mint_decimals
      match u64_from_u256 (denorm transfer.encoded_amount decimals) with
      | .error e => .error e
      | .ok transfer_amount =>
        match u64_from_u256 (denorm transfer.encoded_relayer_fee decimals) with
        | .error e => .error e
        | .ok relayer_payout =>
          if relayer_payout > 0 ∧ accs.recipient_token ≠ accs.payer_token then
            .ok (l',
              [⟨accs.custody_token, accs.payer_token, relayer_payout⟩,
               ⟨accs.custody_token, accs.recipient_token, wrap_sub transfer_amount relayer_payout⟩])
          else
            .ok (l', [⟨accs.custody_token, accs.recipient_token, transfer_amount⟩])

/-- Sequential settlement attempts: run `claim_vaa` `n` times with the same
arguments, threading the ledger (an attempt that fails leaves the ledger
unchanged), and record each attempt's outcome (`none` for success, `some e`
for failure with `e`). -/
def run_claim_attempts (claimKey payerKey programId : Nat) (vaa : VaaAccount)
    (pfx : Option (List Nat)) : Nat → Ledger → List (Option Error) × Ledger
  | 0, l => ([], l)
  | n + 1, l =>
    match claim_vaa l claimKey payerKey programId vaa pfx with
    | .ok l' =>
      let r := run_claim_attempts claimKey payerKey programId vaa pfx n l'
      (none :: r.1, r.2)
    | .error e =>
      let r := run_claim_attempts claimKey payerKey programId vaa pfx n l
      (some e :: r.1, r.2)

/-! ## Helper lemmas -/

/-- Writing the bump byte changes no account's key, so occupancy is
unchanged. -/
theorem Ledger.isOccupied_writeByte (l : Ledger) (a b x : Nat) :
    (l.writeByte a b).isOccupied x = l.isOccupied x := by
  rcases l with ⟨cs⟩
  simp only [Ledger.writeByte, Ledger.isOccupied]
  induction cs with
  | nil => rfl
  | cons hd tl ih =>
    simp only [List.map_cons, List.any_cons, ih]
    by_cases h : hd.1 = a
    · simp [h]
    · simp [h]

/-- Unfolded behaviour of `claim_vaa`: compare the claim key against the
address derived from `claim_seeds`, then create-if-absent and store the
bump. -/
theorem claim_vaa_spec (l : Ledger) (k p pid : Nat) (vaa : VaaAccount)
    (pfx : Option (List Nat)) :
    claim_vaa l k p pid vaa pfx =
      if k = (find_program_address (claim_seeds pfx vaa.emitter) pid).1 then
        if l.isOccupied k then .error .AlreadyClaimed
        else .ok (Ledger.writeByte ⟨(k, 0) :: l.claims⟩ k
          (find_program_address (claim_seeds pfx vaa.emitter) pid).2)
      else .error .ConstraintSeeds := by
  cases pfx with
  | none =>
    simp only [claim_vaa, handle_claim_vaa, claim_seeds, create_account_safe]
    split
    · cases hocc : l.isOccupied k <;> simp [hocc]
    · rfl
  | some ps =>
    simp only [claim_vaa, handle_claim_vaa_prefixed, claim_seeds, create_account_safe]
    split
    · cases hocc : l.isOccupied k <;> simp [hocc]
    · rfl

/-- With the right key and an occupied claim address, `claim_vaa` fails with
`AlreadyClaimed`. -/
theorem claim_vaa_already (l : Ledger) (k p pid : Nat) (vaa : VaaAccount)
    (pfx : Option (List Nat))
    (hk : k = (find_program_address (claim_seeds pfx vaa.emitter) pid).1)
    (hocc : l.isOccupied k = true) :
    claim_vaa l k p pid vaa pfx = .error .AlreadyClaimed := by
  rw [claim_vaa_spec, if_pos hk, if_pos hocc]

/-- With the right key and a free claim address, `claim_vaa` succeeds and the
resulting ledger has the claim address occupied. -/
theorem claim_vaa_fresh (l : Ledger) (k p pid : Nat) (vaa : VaaAccount)
    (pfx : Option (List Nat))
    (hk : k = (find_program_address (claim_seeds pfx vaa.emitter) pid).1)
    (hfree : l.isOccupied k = false) :
    claim_vaa l k p pid vaa pfx =
      .ok (Ledger.writeByte ⟨(k, 0) :: l.claims⟩ k
        (find_program_address (claim_seeds pfx vaa.emitter) pid).2) := by
  rw [claim_vaa_spec, if_pos hk, if_neg (by simp [hfree])]

/-- Once the claim address is occupied, every attempt fails with
`AlreadyClaimed` and the ledger never changes. -/
theorem run_claim_attempts_occupied (k p pid : Nat) (vaa : VaaAccount)
    (pfx : Option (List Nat)) (n : Nat) (l : Ledger)
    (hk : k = (find_program_address (claim_seeds pfx vaa.emitter) pid).1)
    (hocc : l.isOccupied k = true) :
    run_claim_attempts k p pid vaa pfx n l =
      (List.replicate n (some Error.AlreadyClaimed), l) := by
  induction n with
  | zero => rfl
  | succ m ih =>
    rw [run_claim_attempts, claim_vaa_already l k p pid vaa pfx hk hocc, ih]
    rfl

/-! ## Concrete example inputs for witnesses -/

/-- A concrete emitter for witness instantiations. -/
def exEmitter : EmitterInfo := ⟨List.replicate 32 7, 2, 5⟩

/-- A concrete transfer payload: `token_chain = 1` (Solana), a 32-byte token
address, normalized amount 1000000, no relayer fee. -/
def exPayload : TransferMsg := ⟨1, List.replicate 32 3, 1000000, 0, List.replicate 32 9⟩

/-- A concrete parsed VAA. -/
def exVaa : VaaAccount := ⟨exEmitter, exPayload⟩

/-- The claim address the token bridge derives for `exVaa` (no namespace
seed). -/
def exClaimKey : Nat :=
  (find_program_address (claim_seeds none exVaa.emitter) TOKEN_BRIDGE_ID).1

/-! ## Claim theorems -/

/-- C1: for a fixed `(emitter_address, emitter_chain, sequence)` triple and a
fixed namespace choice, once `claim_vaa` has succeeded every later invocation
with the same arguments fails with `AlreadyClaimed`: across `n ≥ 1` attempts
starting from a ledger where the (correctly derived) claim address is free,
the outcome list is one success followed by `n - 1` `AlreadyClaimed`
failures — exactly one success. -/
theorem claim_vaa_at_most_once (l : Ledger) (k p pid n : Nat) (vaa : VaaAccount)
    (pfx : Option (List Nat))
    (hk : k = (find_program_address (claim_seeds pfx vaa.emitter) pid).1)
    (hfree : l.isOccupied k = false) (hn : 1 ≤ n) :
    (run_claim_attempts k p pid vaa pfx n l).1 =
      none :: List.replicate (n - 1) (some Error.AlreadyClaimed) := by
  cases n with
  | zero => exact absurd hn (by decide)
  | succ m =>
    rw [run_claim_attempts, claim_vaa_fresh l k p pid vaa pfx hk hfree]
    have hocc : (Ledger.writeByte ⟨(k, 0) :: l.claims⟩ k
        (find_program_address (claim_seeds pfx vaa.emitter) pid).2).isOccupied k = true := by
      rw [Ledger.isOccupied_writeByte]
      simp [Ledger.isOccupied]
    dsimp only
    rw [run_claim_attempts_occupied k p pid vaa pfx m _ hk hocc]
    rfl

/-- Witness for C1: three attempts on a fresh ledger give one success and two
`AlreadyClaimed` failures. -/
theorem claim_vaa_at_most_once_witness :
    (run_claim_attempts exClaimKey 11 TOKEN_BRIDGE_ID exVaa none 3 ⟨[]⟩).1 =
      none :: List.replicate 2 (some Error.AlreadyClaimed) :=
  claim_vaa_at_most_once ⟨[]⟩ exClaimKey 11 TOKEN_BRIDGE_ID 3 exVaa none rfl rfl
    (by decide)

/-- C6: whenever the supplied claim account key differs from the address
derived from the seeds (optional namespace seed, emitter address, big-endian
chain, big-endian sequence), `claim_vaa` fails with the explicit comparison's
error (`ErrorCode::ConstraintSeeds`, the spec's `AddressMismatch`) for every
ledger state — in particular also when the address is free and creation would
have succeeded, so the failure comes from the explicit check and happens
before any account creation is attempted (the ledger is left untouched). -/
theorem claim_address_mismatch_rejected (l : Ledger) (k p pid : Nat)
    (vaa : VaaAccount) (pfx : Option (List Nat))
    (hk : k ≠ (find_program_address (claim_seeds pfx vaa.emitter) pid).1) :
    claim_vaa l k p pid vaa pfx = .error .ConstraintSeeds := by
  rw [claim_vaa_spec, if_neg hk]

set_option maxRecDepth 8000 in
/-- Witness for C6: a key one off the derived address is rejected with
`ConstraintSeeds` on an empty (entirely free) ledger. -/
theorem claim_address_mismatch_rejected_witness :
    claim_vaa ⟨[]⟩ (exClaimKey + 1) 11 TOKEN_BRIDGE_ID exVaa none =
      .error .ConstraintSeeds :=
  claim_address_mismatch_rejected ⟨[]⟩ (exClaimKey + 1) 11 TOKEN_BRIDGE_ID exVaa
    none (Nat.succ_ne_self exClaimKey)

/-- C10: the outcome of `claim_vaa` — the derived claim address, the required
claim account key, the created account and its stored bump byte — depends only
on the message's emitter fields (plus the namespace choice and the calling
program's identity): two VAAs agreeing on `emitter_info()` give identical
results and identical derivation seeds, whatever their payloads. -/
theorem claim_depends_only_on_emitter (l : Ledger) (k p pid : Nat)
    (v1 v2 : VaaAccount) (pfx : Option (List Nat)) (h : v1.emitter = v2.emitter) :
    claim_vaa l k p pid v1 pfx = claim_vaa l k p pid v2 pfx ∧
    claim_seeds pfx v1.emitter = claim_seeds pfx v2.emitter := by
  constructor
  · simp only [claim_vaa, h]
  · rw [h]

/-- Witness for C10: two VAAs with the same emitter but different payloads
behave identically under `claim_vaa`. -/
theorem claim_depends_only_on_emitter_witness :
    claim_vaa ⟨[]⟩ exClaimKey 11 TOKEN_BRIDGE_ID exVaa none =
      claim_vaa ⟨[]⟩ exClaimKey 11 TOKEN_BRIDGE_ID
        ⟨exEmitter, ⟨2, List.replicate 32 4, 77, 3, List.replicate 32 1⟩⟩ none ∧
    claim_seeds none exVaa.emitter = claim_seeds none exEmitter :=
  claim_depends_only_on_emitter ⟨[]⟩ exClaimKey 11 TOKEN_BRIDGE_ID exVaa
    ⟨exEmitter, ⟨2, List.replicate 32 4, 77, 3, List.replicate 32 1⟩⟩ none rfl

/-- When `native_fee ≤ native_amount < 2 ^ 64`, the `u64` wrapping subtraction
neither underflows nor wraps: it is plain subtraction. -/
theorem wrap_sub_eq_sub (a b : Nat) (hle : b ≤ a) (ha : a < 2 ^ 64) :
    wrap_sub a b = a - b := by
  unfold wrap_sub
  have hN : (2 : Nat) ^ 64 = 18446744073709551616 := by norm_num
  rw [hN] at *
  omega

/-- Behaviour of `complete_transfer_native` once the access-control checks and
the claim creation succeed and both denormalized values fit in `u64`: the
fee-split branch decides whether one or two transfers leave the custody
account. -/
theorem complete_transfer_native_run (l l' : Ledger)
    (accs : CompleteTransferNativeAccounts) (vaa : VaaAccount)
    (hc : CompleteTransferNative.constraints accs vaa = .ok ())
    (hcl : claim_vaa l accs.claim accs.payer TOKEN_BRIDGE_ID vaa none = .ok l')
    (hna : denorm vaa.payload.encoded_amount accs.mint_decimals < 2 ^ 64)
    (hnf : denorm vaa.payload.encoded_relayer_fee accs.mint_decimals < 2 ^ 64) :
    complete_transfer_native l accs vaa =
      if 0 < denorm vaa.payload.encoded_relayer_fee accs.mint_decimals ∧
          accs.recipient_token ≠ accs.payer_token then
        .ok (l',
          [⟨accs.custody_token, accs.payer_token,
            denorm vaa.payload.encoded_relayer_fee accs.mint_decimals⟩,
           ⟨accs.custody_token, accs.recipient_token,
            wrap_sub (denorm vaa.payload.encoded_amount accs.mint_decimals)
              (denorm vaa.payload.encoded_relayer_fee accs.mint_decimals)⟩])
      else
        .ok (l',
          [⟨accs.custody_token, accs.recipient_token,
            denorm vaa.payload.encoded_amount accs.mint_decimals⟩]) := by
  unfold complete_transfer_native u64_from_u256
  rw [hc, hcl]
  dsimp only
  rw [if_pos hna, if_pos hnf]

/-- A concrete 32-byte token address and the matching mint key. -/
def exTokenAddress : List Nat := List.replicate 32 3

/-- The mint key encoded by `exTokenAddress`. -/
def exMintKey : Nat := pubkey_from_bytes exTokenAddress

/-- Concrete accounts for a 6-decimal mint, with distinct recipient and payer
token accounts and a registered emitter matching `exEmitter`. -/
def exAccs : CompleteTransferNativeAccounts :=
  ⟨21, exClaimKey, ⟨2, List.replicate 32 7⟩, 31, 32, 33, exMintKey, 6, 34⟩

/-- The same accounts with a 9-decimal mint. -/
def exAccs9 : CompleteTransferNativeAccounts :=
  ⟨21, exClaimKey, ⟨2, List.replicate 32 7⟩, 31, 32, 33, exMintKey, 9, 34⟩

/-- A transfer message whose `token_chain` is 2, not Solana's chain id. -/
def vaaWrongChain : VaaAccount :=
  ⟨exEmitter, ⟨2, exTokenAddress, 1000000, 0, List.replicate 32 9⟩⟩

/-- A transfer message whose normalized amount denormalizes (at 9 decimals)
beyond the `u64` range. -/
def vaaOverflow : VaaAccount :=
  ⟨exEmitter, ⟨1, exTokenAddress, 2 ^ 64, 0, List.replicate 32 9⟩⟩

/-- A transfer message with a nonzero relayer fee. -/
def vaaFee : VaaAccount :=
  ⟨exEmitter, ⟨1, exTokenAddress, 1000000, 100, List.replicate 32 9⟩⟩

/-- The bump stored for claims derived from `exEmitter` without a namespace
seed. -/
def exBump : Nat := (find_program_address (claim_seeds none exEmitter) TOKEN_BRIDGE_ID).2

/-- The ledger after the example claim has been created. -/
def exLedgerAfter : Ledger := ⟨[(exClaimKey, exBump)]⟩

set_option maxRecDepth 8000 in
/-- Counterexample to C2: a message that is both already claimed (the claim
address is occupied) and fails the asset-class check (`token_chain = 2`) is
reported with the asset-class error `WrappedAsset`, not with the replay
guard's `AlreadyClaimed`: the access-control checks run before the replay
guard, not after it. -/
theorem checks_reported_before_guard_cex :
    (⟨[(exClaimKey, 200)]⟩ : Ledger).isOccupied exAccs.claim = true ∧
    complete_transfer_native ⟨[(exClaimKey, 200)]⟩ exAccs vaaWrongChain =
      .error .WrappedAsset ∧
    Error.WrappedAsset ≠ Error.AlreadyClaimed :=
  ⟨by decide, by decide, by decide⟩

/-- C2 (amended): `complete_transfer_native` performs the source-emitter
authorization and the asset-class checks first, via its access-control
function, and acquires the replay guard only afterwards; whenever those checks
fail, their error is the one reported, for every ledger state — in particular
also when the message is already claimed. -/
theorem constraints_gate_replay_guard (l : Ledger)
    (accs : CompleteTransferNativeAccounts) (vaa : VaaAccount) (e : Error)
    (h : CompleteTransferNative.constraints accs vaa = .error e) :
    complete_transfer_native l accs vaa = .error e := by
  unfold complete_transfer_native
  rw [h]

set_option maxRecDepth 8000 in
/-- Witness for the amended C2: the already-claimed, wrong-asset-class message
is reported with `WrappedAsset`. -/
theorem constraints_gate_replay_guard_witness :
    complete_transfer_native ⟨[(exClaimKey, 200)]⟩ exAccs vaaWrongChain =
      .error .WrappedAsset :=
  constraints_gate_replay_guard ⟨[(exClaimKey, 200)]⟩ exAccs vaaWrongChain
    .WrappedAsset (by decide)

set_option maxRecDepth 8000 in
/-- Counterexample to C3: a message whose denormalized amount exceeds the
`u64` range makes the settlement abort with a Rust panic (the unchecked
`.try_into().expect(..)` conversion), not with a distinct `AmountOverflow`
diagnostic code. -/
theorem overflow_panic_not_amount_overflow_cex :
    2 ^ 64 ≤ denorm vaaOverflow.payload.encoded_amount exAccs9.mint_decimals ∧
    complete_transfer_native ⟨[]⟩ exAccs9 vaaOverflow = .error .Panicked ∧
    Error.Panicked ≠ Error.AmountOverflow :=
  ⟨by decide, by decide, by decide⟩

/-- C3 (amended): for every message that passes the access-control checks and
the replay guard but whose denormalized amount or relayer fee does not fit in
an unsigned 64-bit integer, the settlement aborts with the conversion panic —
it never wraps or truncates the value, and no `AmountOverflow` diagnostic code
exists in the code. -/
theorem overflow_aborts_with_panic (l l' : Ledger)
    (accs : CompleteTransferNativeAccounts) (vaa : VaaAccount)
    (hc : CompleteTransferNative.constraints accs vaa = .ok ())
    (hcl : claim_vaa l accs.claim accs.payer TOKEN_BRIDGE_ID vaa none = .ok l')
    (hover : 2 ^ 64 ≤ denorm vaa.payload.encoded_amount accs.mint_decimals ∨
             2 ^ 64 ≤ denorm vaa.payload.encoded_relayer_fee accs.mint_decimals) :
    complete_transfer_native l accs vaa = .error .Panicked := by
  unfold complete_transfer_native u64_from_u256
  rw [hc, hcl]
  dsimp only
  by_cases h1 : denorm vaa.payload.encoded_amount accs.mint_decimals < 2 ^ 64
  · have h2 : 2 ^ 64 ≤ denorm vaa.payload.encoded_relayer_fee accs.mint_decimals := by
      rcases hover with h | h
      · exact absurd h1 (not_lt.mpr h)
      · exact h
    rw [if_pos h1]
    dsimp only
    rw [if_neg (not_lt.mpr h2)]
  · rw [if_neg h1]

set_option maxRecDepth 8000 in
/-- Witness for the amended C3: the overflowing concrete message aborts with
the panic. -/
theorem overflow_aborts_with_panic_witness :
    complete_transfer_native ⟨[]⟩ exAccs9 vaaOverflow = .error .Panicked :=
  overflow_aborts_with_panic ⟨[]⟩ exLedgerAfter exAccs9 vaaOverflow (by decide)
    (by decide) (.inl (by decide))

/-- C4: for a settlement whose checks, claim and `u64` conversions succeed and
whose relayer fee does not exceed the amount: when the fee is positive and the
relayer's token account differs from the recipient's, exactly two transfers
leave escrow — the fee to the relayer and `native_amount − native_fee` to the
recipient; otherwise exactly one transfer of the full amount goes to the
recipient. -/
theorem fee_split_policy (l l' : Ledger)
    (accs : CompleteTransferNativeAccounts) (vaa : VaaAccount)
    (hc : CompleteTransferNative.constraints accs vaa = .ok ())
    (hcl : claim_vaa l accs.claim accs.payer TOKEN_BRIDGE_ID vaa none = .ok l')
    (hna : denorm vaa.payload.encoded_amount accs.mint_decimals < 2 ^ 64)
    (hle : denorm vaa.payload.encoded_relayer_fee accs.mint_decimals ≤
           denorm vaa.payload.encoded_amount accs.mint_decimals) :
    complete_transfer_native l accs vaa =
      if 0 < denorm vaa.payload.encoded_relayer_fee accs.mint_decimals ∧
          accs.recipient_token ≠ accs.payer_token then
        .ok (l',
          [⟨accs.custody_token, accs.payer_token,
            denorm vaa.payload.encoded_relayer_fee accs.mint_decimals⟩,
           ⟨accs.custody_token, accs.recipient_token,
            denorm vaa.payload.encoded_amount accs.mint_decimals -
              denorm vaa.payload.encoded_relayer_fee accs.mint_decimals⟩])
      else
        .ok (l',
          [⟨accs.custody_token, accs.recipient_token,
            denorm vaa.payload.encoded_amount accs.mint_decimals⟩]) := by
  have hnf : denorm vaa.payload.encoded_relayer_fee accs.mint_decimals < 2 ^ 64 :=
    lt_of_le_of_lt hle hna
  rw [complete_transfer_native_run l l' accs vaa hc hcl hna hnf]
  by_cases hcond : 0 < denorm vaa.payload.encoded_relayer_fee accs.mint_decimals ∧
      accs.recipient_token ≠ accs.payer_token
  · rw [if_pos hcond, if_pos hcond, wrap_sub_eq_sub _ _ hle hna]
  · rw [if_neg hcond, if_neg hcond]

set_option maxRecDepth 8000 in
/-- Witness for C4: amount 1000000 and fee 100 at 6 decimals give native
amount 10000 and native fee 1; with distinct recipient and relayer accounts
the fee split issues the two transfers. -/
theorem fee_split_policy_witness :
    complete_transfer_native ⟨[]⟩ exAccs vaaFee =
      if 0 < denorm vaaFee.payload.encoded_relayer_fee exAccs.mint_decimals ∧
          exAccs.recipient_token ≠ exAccs.payer_token then
        .ok (exLedgerAfter,
          [⟨exAccs.custody_token, exAccs.payer_token,
            denorm vaaFee.payload.encoded_relayer_fee exAccs.mint_decimals⟩,
           ⟨exAccs.custody_token, exAccs.recipient_token,
            denorm vaaFee.payload.encoded_amount exAccs.mint_decimals -
              denorm vaaFee.payload.encoded_relayer_fee exAccs.mint_decimals⟩])
      else
        .ok (exLedgerAfter,
          [⟨exAccs.custody_token, exAccs.recipient_token,
            denorm vaaFee.payload.encoded_amount exAccs.mint_decimals⟩]) :=
  fee_split_policy ⟨[]⟩ exLedgerAfter exAccs vaaFee (by decide) (by decide)
    (by decide) (by decide)

/-- C5: denormalization of a normalized value `v` at `D` native decimals is
`v * 10 ^ (D − 8)` for `D > 8` and floor division `v / 10 ^ (8 − D)` for
`D ≤ 8`; in particular `D = 6, v = 1000000` gives 10000 and `D = 9,
v = 1000000` gives 10000000; and the settlement handler applies the same
`denorm` with the same mint decimals independently to the amount and to the
relayer fee, as the two issued transfer amounts show. -/
theorem denorm_scaling :
    (∀ v D : Nat, 8 < D → denorm v D = v * 10 ^ (D - 8)) ∧
    (∀ v D : Nat, D ≤ 8 → denorm v D = v / 10 ^ (8 - D)) ∧
    denorm 1000000 6 = 10000 ∧ denorm 1000000 9 = 10000000 ∧
    ∀ (l l' : Ledger) (accs : CompleteTransferNativeAccounts) (vaa : VaaAccount),
      CompleteTransferNative.constraints accs vaa = .ok () →
      claim_vaa l accs.claim accs.payer TOKEN_BRIDGE_ID vaa none = .ok l' →
      denorm vaa.payload.encoded_amount accs.mint_decimals < 2 ^ 64 →
      denorm vaa.payload.encoded_relayer_fee accs.mint_decimals < 2 ^ 64 →
      0 < denorm vaa.payload.encoded_relayer_fee accs.mint_decimals →
      accs.recipient_token ≠ accs.payer_token →
      complete_transfer_native l accs vaa =
        .ok (l',
          [⟨accs.custody_token, accs.payer_token,
            denorm vaa.payload.encoded_relayer_fee accs.mint_decimals⟩,
           ⟨accs.custody_token, accs.recipient_token,
            wrap_sub (denorm vaa.payload.encoded_amount accs.mint_decimals)
              (denorm vaa.payload.encoded_relayer_fee accs.mint_decimals)⟩]) := by
  refine ⟨?_, ?_, by decide, by decide, ?_⟩
  · intro v D h
    unfold denorm
    rw [if_pos h]
  · intro v D h
    unfold denorm
    rw [if_neg (by omega)]
  · intro l l' accs vaa hc hcl hna hnf hpos hne
    rw [complete_transfer_native_run l l' accs vaa hc hcl hna hnf,
      if_pos ⟨hpos, hne⟩]

set_option maxRecDepth 8000 in
/-- Witness for C5: the formula instantiated at `D = 9` and `D = 6`, and the
handler's two transfer amounts both produced by `denorm` at the mint's
decimals on the concrete fee-carrying message. -/
theorem denorm_scaling_witness :
    denorm 1000000 9 = 1000000 * 10 ^ (9 - 8) ∧
    denorm 1000000 6 = 1000000 / 10 ^ (8 - 6) ∧
    complete_transfer_native ⟨[]⟩ exAccs vaaFee =
      .ok (exLedgerAfter,
        [⟨exAccs.custody_token, exAccs.payer_token,
          denorm vaaFee.payload.encoded_relayer_fee exAccs.mint_decimals⟩,
         ⟨exAccs.custody_token, exAccs.recipient_token,
          wrap_sub (denorm vaaFee.payload.encoded_amount exAccs.mint_decimals)
            (denorm vaaFee.payload.encoded_relayer_fee exAccs.mint_decimals)⟩]) :=
  ⟨denorm_scaling.1 1000000 9 (by decide),
   denorm_scaling.2.1 1000000 6 (by decide),
   denorm_scaling.2.2.2.2 ⟨[]⟩ exLedgerAfter exAccs vaaFee (by decide) (by decide)
     (by decide) (by decide) (by decide) (by decide)⟩

/-- A transfer message whose 32-byte token address does not encode the
caller-supplied mint. -/
def vaaBadMint : VaaAccount :=
  ⟨exEmitter, ⟨1, List.replicate 32 4, 1000000, 0, List.replicate 32 9⟩⟩

/-- C7: with the emitter authorization passing, a message whose
`payload.token_chain` differs from the local chain id is rejected with
`TokenBridgeError::WrappedAsset` (the spec's `WrongSettlementPath`), and a
message on the local chain whose `payload.token_address` does not decode to
the supplied mint is rejected with `InvalidMint` — in both cases the whole
settlement returns the error, so no escrow transfer is ever issued (transfers
exist only in the `ok` result). -/
theorem asset_class_checks (l : Ledger) (accs : CompleteTransferNativeAccounts)
    (vaa : VaaAccount)
    (hre : accs.registered_emitter.chain = vaa.emitter.chain ∧
           accs.registered_emitter.address = vaa.emitter.address) :
    (vaa.payload.token_chain ≠ SOLANA_CHAIN →
      complete_transfer_native l accs vaa = .error .WrappedAsset) ∧
    (vaa.payload.token_chain = SOLANA_CHAIN →
      accs.mint ≠ pubkey_from_bytes vaa.payload.token_address →
      complete_transfer_native l accs vaa = .error .InvalidMint) := by
  constructor
  · intro htc
    unfold complete_transfer_native CompleteTransferNative.constraints
      validate_token_transfer_vaa
    rw [if_pos hre]
    dsimp only
    rw [if_neg htc]
  · intro htc hm
    unfold complete_transfer_native CompleteTransferNative.constraints
      validate_token_transfer_vaa
    rw [if_pos hre]
    dsimp only
    rw [if_pos htc, if_neg hm]

set_option maxRecDepth 8000 in
/-- Witness for C7: a `token_chain = 2` message is rejected with
`WrappedAsset`, and a mismatching token address is rejected with
`InvalidMint`, both on a completely fresh ledger. -/
theorem asset_class_checks_witness :
    complete_transfer_native ⟨[]⟩ exAccs vaaWrongChain = .error .WrappedAsset ∧
    complete_transfer_native ⟨[]⟩ exAccs vaaBadMint = .error .InvalidMint :=
  ⟨(asset_class_checks ⟨[]⟩ exAccs vaaWrongChain ⟨by decide, by decide⟩).1
      (by decide),
   (asset_class_checks ⟨[]⟩ exAccs vaaBadMint ⟨by decide, by decide⟩).2
      (by decide) (by decide)⟩

/-- C8: for every successful settlement with `native_fee ≤ native_amount`,
the amounts of the issued transfers sum to exactly the denormalized native
amount, every transfer leaves the custody (escrow) token account, and this
holds in both the two-transfer and the single-transfer branch. -/
theorem escrow_debit_conservation (l l' : Ledger)
    (accs : CompleteTransferNativeAccounts) (vaa : VaaAccount)
    (hc : CompleteTransferNative.constraints accs vaa = .ok ())
    (hcl : claim_vaa l accs.claim accs.payer TOKEN_BRIDGE_ID vaa none = .ok l')
    (hna : denorm vaa.payload.encoded_amount accs.mint_decimals < 2 ^ 64)
    (hle : denorm vaa.payload.encoded_relayer_fee accs.mint_decimals ≤
           denorm vaa.payload.encoded_amount accs.mint_decimals) :
    ∃ ixs, complete_transfer_native l accs vaa = .ok (l', ixs) ∧
      (ixs.map (fun t => t.amount)).sum =
        denorm vaa.payload.encoded_amount accs.mint_decimals ∧
      ∀ t ∈ ixs, t.from_acc = accs.custody_token := by
  have hnf : denorm vaa.payload.encoded_relayer_fee accs.mint_decimals < 2 ^ 64 :=
    lt_of_le_of_lt hle hna
  rw [complete_transfer_native_run l l' accs vaa hc hcl hna hnf]
  by_cases hcond : 0 < denorm vaa.payload.encoded_relayer_fee accs.mint_decimals ∧
      accs.recipient_token ≠ accs.payer_token
  · rw [if_pos hcond]
    refine ⟨_, rfl, ?_, ?_⟩
    · rw [wrap_sub_eq_sub _ _ hle hna]
      simp only [List.map_cons, List.map_nil, List.sum_cons, List.sum_nil]
      omega
    · intro t ht
      simp only [List.mem_cons, List.not_mem_nil, or_false] at ht
      rcases ht with h | h <;> rw [h]
  · rw [if_neg hcond]
    refine ⟨_, rfl, ?_, ?_⟩
    · simp only [List.map_cons, List.map_nil, List.sum_cons, List.sum_nil]
      omega
    · intro t ht
      simp only [List.mem_cons, List.not_mem_nil, or_false] at ht
      rw [ht]

set_option maxRecDepth 8000 in
/-- Witness for C8: the fee-carrying example settles with transfers of 1 and
9999 units, summing to the native amount 10000, both from custody account
33. -/
theorem escrow_debit_conservation_witness :
    ∃ ixs, complete_transfer_native ⟨[]⟩ exAccs vaaFee = .ok (exLedgerAfter, ixs) ∧
      (ixs.map (fun t => t.amount)).sum =
        denorm vaaFee.payload.encoded_amount exAccs.mint_decimals ∧
      ∀ t ∈ ixs, t.from_acc = exAccs.custody_token :=
  escrow_debit_conservation ⟨[]⟩ exLedgerAfter exAccs vaaFee (by decide)
    (by decide) (by decide) (by decide)

/-- C9: the handler subtracts the relayer payout from the transfer amount with
an unchecked `u64` subtraction; under the upstream invariant
`native_fee ≤ native_amount` (with the amount a valid `u64`) the subtraction
never underflows or wraps — it equals plain subtraction and stays at most the
amount — and in the fee-split branch the recipient's transfer amount is
exactly `native_amount − native_fee`. -/
theorem fee_subtraction_no_underflow :
    (∀ a b : Nat, b ≤ a → a < 2 ^ 64 → wrap_sub a b = a - b ∧ a - b ≤ a) ∧
    ∀ (l l' : Ledger) (accs : CompleteTransferNativeAccounts) (vaa : VaaAccount),
      CompleteTransferNative.constraints accs vaa = .ok () →
      claim_vaa l accs.claim accs.payer TOKEN_BRIDGE_ID vaa none = .ok l' →
      denorm vaa.payload.encoded_amount accs.mint_decimals < 2 ^ 64 →
      denorm vaa.payload.encoded_relayer_fee accs.mint_decimals ≤
        denorm vaa.payload.encoded_amount accs.mint_decimals →
      0 < denorm vaa.payload.encoded_relayer_fee accs.mint_decimals →
      accs.recipient_token ≠ accs.payer_token →
      complete_transfer_native l accs vaa =
        .ok (l',
          [⟨accs.custody_token, accs.payer_token,
            denorm vaa.payload.encoded_relayer_fee accs.mint_decimals⟩,
           ⟨accs.custody_token, accs.recipient_token,
            denorm vaa.payload.encoded_amount accs.mint_decimals -
              denorm vaa.payload.encoded_relayer_fee accs.mint_decimals⟩]) := by
  constructor
  · intro a b hle ha
    exact ⟨wrap_sub_eq_sub a b hle ha, Nat.sub_le a b⟩
  · intro l l' accs vaa hc hcl hna hle hpos hne
    have hnf : denorm vaa.payload.encoded_relayer_fee accs.mint_decimals < 2 ^ 64 :=
      lt_of_le_of_lt hle hna
    rw [complete_transfer_native_run l l' accs vaa hc hcl hna hnf,
      if_pos ⟨hpos, hne⟩, wrap_sub_eq_sub _ _ hle hna]

set_option maxRecDepth 8000 in
/-- Witness for C9: the unchecked subtraction at the concrete native values
10000 and 1, and the concrete fee-split run delivering 9999 to the
recipient. -/
theorem fee_subtraction_no_underflow_witness :
    (wrap_sub 10000 1 = 10000 - 1 ∧ 10000 - 1 ≤ 10000) ∧
    complete_transfer_native ⟨[]⟩ exAccs vaaFee =
      .ok (exLedgerAfter,
        [⟨exAccs.custody_token, exAccs.payer_token,
          denorm vaaFee.payload.encoded_relayer_fee exAccs.mint_decimals⟩,
         ⟨exAccs.custody_token, exAccs.recipient_token,
          denorm vaaFee.payload.encoded_amount exAccs.mint_decimals -
            denorm vaaFee.payload.encoded_relayer_fee exAccs.mint_decimals⟩]) :=
  ⟨fee_subtraction_no_underflow.1 10000 1 (by decide) (by decide),
   fee_subtraction_no_underflow.2 ⟨[]⟩ exLedgerAfter exAccs vaaFee (by decide)
     (by decide) (by decide) (by decide) (by decide) (by decide)⟩
